import Mathlib

/-!
Verification of `pkg/securityscan/controller.go` (cis-operator).

The Go file is bootstrap code: it builds the `Controller` struct from a
`rest.Config` (falling back to the in-cluster config), detects the cluster
provider and the Kubernetes version, constructs the client sets and
controller factories, registers six Prometheus metric families in the
process-wide default registry, wires up five event handlers in `Start`,
and registers the ClusterScan CRD in `registerCRD`.

The embedding below models external collaborators (client constructors,
the provider detector, the CRD batch-create-and-wait step, the handler
registrations whose bodies live outside this file) as environment records
whose fields hold the outcome each external call would produce; the code
of `controller.go` itself is translated statement by statement.  Fallible
Go calls returning `(value, error)` become `Except Err value`; calls
returning only `error` become `Option Err` (with `none` for the `nil`
error).  Go nil-able pointer fields become `Option` fields.  The
process-wide default Prometheus registry is threaded explicitly as a
`Registry` value.
-/

namespace CisOperator

/-- Go `error` values, modelled by their message strings. -/
abbrev Err := String

/-- Opaque handle for a `rest.Config`. -/
structure Config where
  id : Nat
deriving DecidableEq, Repr, Inhabited

/-- Opaque handle for a `kubernetes.Clientset`. -/
structure Clientset where
  id : Nat
deriving DecidableEq, Repr, Inhabited

/-- Opaque handle for a `kubeapiext.Clientset`. -/
structure ApiextClientset where
  id : Nat
deriving DecidableEq, Repr, Inhabited

/-- Opaque handle for a `corectl.Factory`. -/
structure CoreFactory where
  id : Nat
deriving DecidableEq, Repr, Inhabited

/-- Opaque handle for a `batchctl.Factory`. -/
structure BatchFactory where
  id : Nat
deriving DecidableEq, Repr, Inhabited

/-- Opaque handle for a `cisoperatorctl.Factory`. -/
structure CisFactory where
  id : Nat
deriving DecidableEq, Repr, Inhabited

/-- Opaque handle for an `apply.Apply` client. -/
structure ApplyClient where
  id : Nat
deriving DecidableEq, Repr, Inhabited

/-- Opaque handle for a `v1monitoringclient.MonitoringV1Interface`. -/
structure MonitoringClient where
  id : Nat
deriving DecidableEq, Repr, Inhabited

/-- Opaque handle for a `cisoperatorapiv1.ScanImageConfig`. -/
structure ScanImageConfig where
  id : Nat
deriving DecidableEq, Repr, Inhabited

/-- The result of `Discovery().ServerVersion()`: a `version.Info` value,
of which `controller.go` reads only `GitVersion`. -/
structure VersionInfo where
  gitVersion : String
deriving DecidableEq, Repr, Inhabited

/-- The two collector families used by `initializeMetrics`:
`prometheus.NewGaugeVec` and `prometheus.NewCounterVec`. -/
inductive CollectorKind
  | gauge
  | counter
deriving DecidableEq, Repr

/-- What identifies a collector vec handed to `prometheus.Register`:
its kind, its `Name`, its `Help` string and its variable label names. -/
structure CollectorSpec where
  kind : CollectorKind
  name : String
  help : String
  labels : List String
deriving DecidableEq, Repr

/-- The process-wide default Prometheus registry
(`prometheus.DefaultRegisterer`), modelled as the list of collector
specs registered so far, in registration order. -/
abbrev Registry := List CollectorSpec

/-- The default registry at process start: nothing registered. -/
def Registry.emptyReg : Registry := []

/-- Model of `prometheus.Register` against the default registry: a
collector whose name is already registered is rejected with an
`AlreadyRegisteredError`; otherwise it is appended. -/
def Registry.registerCollector (reg : Registry) (c : CollectorSpec) : Except Err Registry :=
  if reg.any (fun d => d.name == c.name) then
    .error ("duplicate metrics collector registration attempted: " ++ c.name)
  else
    .ok (reg ++ [c])

/-- Label names shared by all six metric families in
`initializeMetrics`: `scan_name` and `scan_profile_name`. -/
def scanMetricLabels : List String := ["scan_name", "scan_profile_name"]

/-- The `cis_scan_num_tests_fail` gauge vec built in `initializeMetrics`. -/
def numTestsFailedSpec : CollectorSpec :=
  { kind := .gauge
    name := "cis_scan_num_tests_fail"
    help := "Number of test failed in the CIS scans, partioned by scan_name, scan_profile_name"
    labels := scanMetricLabels }

/-- The `cis_scan_num_scans_complete` counter vec built in `initializeMetrics`. -/
def numScansCompleteSpec : CollectorSpec :=
  { kind := .counter
    name := "cis_scan_num_scans_complete"
    help := "Number of CIS clusterscans completed, partioned by scan_name, scan_profile_name"
    labels := scanMetricLabels }

/-- The `cis_scan_num_tests_total` gauge vec built in `initializeMetrics`. -/
def numTestsTotalSpec : CollectorSpec :=
  { kind := .gauge
    name := "cis_scan_num_tests_total"
    help := "Total Number of tests run in the CIS scans, partioned by scan_name, scan_profile_name"
    labels := scanMetricLabels }

/-- The `cis_scan_num_tests_pass` gauge vec built in `initializeMetrics`. -/
def numTestsPassedSpec : CollectorSpec :=
  { kind := .gauge
    name := "cis_scan_num_tests_pass"
    help := "Number of tests passing in the CIS scans, partioned by scan_name, scan_profile_name"
    labels := scanMetricLabels }

/-- The `cis_scan_num_tests_skipped` gauge vec built in `initializeMetrics`. -/
def numTestsSkippedSpec : CollectorSpec :=
  { kind := .gauge
    name := "cis_scan_num_tests_skipped"
    help := "Number of test skipped in the CIS scans, partioned by scan_name, scan_profile_name"
    labels := scanMetricLabels }

/-- The `cis_scan_num_tests_na` gauge vec built in `initializeMetrics`. -/
def numTestsNASpec : CollectorSpec :=
  { kind := .gauge
    name := "cis_scan_num_tests_na"
    help := "Number of tests not applicable in the CIS scans, partioned by scan_name, scan_profile_name"
    labels := scanMetricLabels }

/-- The six collector specs in the order `initializeMetrics` registers
them. -/
def registeredSpecs : List CollectorSpec :=
  [numTestsFailedSpec, numScansCompleteSpec, numTestsTotalSpec,
   numTestsPassedSpec, numTestsSkippedSpec, numTestsNASpec]

/-- The `Controller` struct of `controller.go`.  Pointer fields that Go
leaves `nil` until assigned are `Option`s; `mu *sync.Mutex` is
`Option Unit` (only its nil-ness matters to the embedding); the six
collector-vec fields record the spec of the vec assigned to them. -/
structure Controller where
  Namespace : String
  Name : String
  ClusterProvider : String
  KubernetesVersion : String
  ImageConfig : Option ScanImageConfig
  kcs : Option Clientset
  xcs : Option ApiextClientset
  coreFactory : Option CoreFactory
  batchFactory : Option BatchFactory
  cisFactory : Option CisFactory
  applyClient : Option ApplyClient
  monitoringClient : Option MonitoringClient
  mu : Option Unit
  numTestsFailed : Option CollectorSpec
  numScansComplete : Option CollectorSpec
  numTestsSkipped : Option CollectorSpec
  numTestsTotal : Option CollectorSpec
  numTestsNA : Option CollectorSpec
  numTestsPassed : Option CollectorSpec
deriving DecidableEq, Repr

/-- `initializeMetrics(ctl)` from `controller.go`: builds the six
collector vecs, assigns each to its field on `ctl`, and registers each in
the process-wide default registry, in source order (failed, scans
complete, total, passed, skipped, not applicable).  On a registration
error it stops and reports that error; earlier registrations stay in the
registry (Go performs no rollback) and earlier field assignments stay on
the struct. -/
def initializeMetrics (ctl : Controller) (reg : Registry) :
    Controller × Registry × Option Err :=
  let ctl := { ctl with numTestsFailed := some numTestsFailedSpec }
  match reg.registerCollector numTestsFailedSpec with
  | .error e => (ctl, reg, some e)
  | .ok reg =>
  let ctl := { ctl with numScansComplete := some numScansCompleteSpec }
  match reg.registerCollector numScansCompleteSpec with
  | .error e => (ctl, reg, some e)
  | .ok reg =>
  let ctl := { ctl with numTestsTotal := some numTestsTotalSpec }
  match reg.registerCollector numTestsTotalSpec with
  | .error e => (ctl, reg, some e)
  | .ok reg =>
  let ctl := { ctl with numTestsPassed := some numTestsPassedSpec }
  match reg.registerCollector numTestsPassedSpec with
  | .error e => (ctl, reg, some e)
  | .ok reg =>
  let ctl := { ctl with numTestsSkipped := some numTestsSkippedSpec }
  match reg.registerCollector numTestsSkippedSpec with
  | .error e => (ctl, reg, some e)
  | .ok reg =>
  let ctl := { ctl with numTestsNA := some numTestsNASpec }
  match reg.registerCollector numTestsNASpec with
  | .error e => (ctl, reg, some e)
  | .ok reg =>
  (ctl, reg, none)

/-- The external calls `controller.go` makes, used to trace which
collaborators each function invokes and in what order. -/
inductive Call
  | inClusterConfig
  | kubernetesNewForConfig
  | apiextNewForConfig
  | detectProviderCall
  | serverVersionCall
  | applyNewForConfig
  | cisNewFactoryFromConfig
  | batchNewFactoryFromConfig
  | coreNewFactoryFromConfig
  | monitoringNewForConfig
  | handleJobs
  | handlePods
  | handleClusterScans
  | handleScheduledClusterScans
  | handleClusterScanMetrics
  | startAll
deriving DecidableEq, Repr

/-- Outcomes of the external collaborators `NewController` calls:
`rest.InClusterConfig`, the client/factory constructors, the
provider detector (`detector.DetectProvider`) and the discovery
client's `ServerVersion`.  Each is deterministic in its argument,
matching one process run. -/
structure Env where
  inClusterConfig : Except Err Config
  kubernetesNewForConfig : Config → Except Err Clientset
  apiextNewForConfig : Config → Except Err ApiextClientset
  detectProvider : Clientset → Except Err String
  serverVersion : Clientset → Except Err VersionInfo
  applyNewForConfig : Config → Except Err ApplyClient
  cisNewFactoryFromConfig : Config → Except Err CisFactory
  batchNewFactoryFromConfig : Config → Except Err BatchFactory
  coreNewFactoryFromConfig : Config → Except Err CoreFactory
  monitoringNewForConfig : Config → Except Err MonitoringClient

/-- `detectClusterProvider(ctx, k8sClient)` from `controller.go`:
forwards `detector.DetectProvider`, returning its provider name or its
error unchanged. -/
def detectClusterProvider (env : Env) (k8sClient : Clientset) : Except Err String :=
  match env.detectProvider k8sClient with
  | .error e => .error e
  | .ok provider => .ok provider

/-- `detectKubernetesVersion(ctx, k8sClient)` from `controller.go`:
calls `Discovery().ServerVersion()` and returns its `GitVersion`, or the
error unchanged. -/
def detectKubernetesVersion (env : Env) (k8sClient : Clientset) : Except Err String :=
  match env.serverVersion k8sClient with
  | .error e => .error e
  | .ok v => .ok v.gitVersion

/-- The body of `NewController` after the config has been resolved
(everything below line 61 of `controller.go`): builds the struct literal
(namespace, name, image config, fresh mutex), then runs the fallible
initialization steps in source order, returning `nil, err` at the first
failure; the returned triple also carries the updated process-wide
registry and the trace of external calls made. -/
def newControllerWithConfig (cfg : Config) (ns nm : String)
    (imgConfig : Option ScanImageConfig) (env : Env) (reg : Registry)
    (tr : List Call) : (Option Controller × Option Err) × Registry × List Call :=
  let ctl : Controller :=
    { Namespace := ns, Name := nm, ClusterProvider := "", KubernetesVersion := "",
      ImageConfig := imgConfig, kcs := none, xcs := none, coreFactory := none,
      batchFactory := none, cisFactory := none, applyClient := none,
      monitoringClient := none, mu := some (), numTestsFailed := none,
      numScansComplete := none, numTestsSkipped := none, numTestsTotal := none,
      numTestsNA := none, numTestsPassed := none }
  let tr := tr ++ [Call.kubernetesNewForConfig]
  match env.kubernetesNewForConfig cfg with
  | .error e => ((none, some e), reg, tr)
  | .ok kcs =>
  let ctl := { ctl with kcs := some kcs }
  let tr := tr ++ [Call.apiextNewForConfig]
  match env.apiextNewForConfig cfg with
  | .error e => ((none, some e), reg, tr)
  | .ok xcs =>
  let ctl := { ctl with xcs := some xcs }
  let tr := tr ++ [Call.kubernetesNewForConfig]
  match env.kubernetesNewForConfig cfg with
  | .error e => ((none, some e), reg, tr)
  | .ok clientset =>
  let tr := tr ++ [Call.detectProviderCall]
  match detectClusterProvider env clientset with
  | .error e => ((none, some e), reg, tr)
  | .ok provider =>
  let ctl := { ctl with ClusterProvider := provider }
  let tr := tr ++ [Call.serverVersionCall]
  match detectKubernetesVersion env clientset with
  | .error e => ((none, some e), reg, tr)
  | .ok ver =>
  let ctl := { ctl with KubernetesVersion := ver }
  let tr := tr ++ [Call.applyNewForConfig]
  match env.applyNewForConfig cfg with
  | .error e => ((none, some e), reg, tr)
  | .ok ap =>
  let ctl := { ctl with applyClient := some ap }
  let tr := tr ++ [Call.cisNewFactoryFromConfig]
  match env.cisNewFactoryFromConfig cfg with
  | .error e =>
      ((none, some ("Error building securityscan NewFactoryFromConfig: " ++ e)), reg, tr)
  | .ok cisF =>
  let ctl := { ctl with cisFactory := some cisF }
  let tr := tr ++ [Call.batchNewFactoryFromConfig]
  match env.batchNewFactoryFromConfig cfg with
  | .error e =>
      ((none, some ("Error building batch NewFactoryFromConfig: " ++ e)), reg, tr)
  | .ok bF =>
  let ctl := { ctl with batchFactory := some bF }
  let tr := tr ++ [Call.coreNewFactoryFromConfig]
  match env.coreNewFactoryFromConfig cfg with
  | .error e =>
      ((none, some ("Error building core NewFactoryFromConfig: " ++ e)), reg, tr)
  | .ok coreF =>
  let ctl := { ctl with coreFactory := some coreF }
  let tr := tr ++ [Call.monitoringNewForConfig]
  match env.monitoringNewForConfig cfg with
  | .error e =>
      ((none, some ("Error building v1 monitoring client from config: " ++ e)), reg, tr)
  | .ok mon =>
  let ctl := { ctl with monitoringClient := some mon }
  match initializeMetrics ctl reg with
  | (_, regAfter, some e) =>
      ((none, some ("Error registering CIS Metrics: " ++ e)), regAfter, tr)
  | (ctlFinal, regAfter, none) => ((some ctlFinal, none), regAfter, tr)

/-- `NewController(ctx, cfg, namespace, name, imgConfig)` from
`controller.go`: when `cfg` is nil it falls back to
`rest.InClusterConfig`, returning `nil, err` if that lookup fails; then
it runs the initialization body.  Returned alongside the Go results
`(ctl, err)` are the updated process-wide registry and the external-call
trace. -/
def NewController (cfg? : Option Config) (ns nm : String)
    (imgConfig : Option ScanImageConfig) (env : Env) (reg : Registry) :
    (Option Controller × Option Err) × Registry × List Call :=
  match cfg? with
  | none =>
    match env.inClusterConfig with
    | .error e => ((none, some e), reg, [Call.inClusterConfig])
    | .ok cfg => newControllerWithConfig cfg ns nm imgConfig env reg [Call.inClusterConfig]
  | some cfg => newControllerWithConfig cfg ns nm imgConfig env reg []

/-- The external calls the body of `NewController` makes after the config
is resolved, in source order. -/
def bodyCalls : List Call :=
  [Call.kubernetesNewForConfig, Call.apiextNewForConfig,
   Call.kubernetesNewForConfig, Call.detectProviderCall,
   Call.serverVersionCall, Call.applyNewForConfig,
   Call.cisNewFactoryFromConfig, Call.batchNewFactoryFromConfig,
   Call.coreNewFactoryFromConfig, Call.monitoringNewForConfig]

/-- Registrations `Controller.Start` performs and the outcome of each:
the five handler-registration methods (`handleJobs`, `handlePods`,
`handleClusterScans`, `handleScheduledClusterScans`,
`handleClusterScanMetrics`) and `start.All` over the three factories.
Modelled from the spec: the bodies of these methods are repository code
outside the observed fragment; per the spec they wire watch handlers for
the reconcilers and then start the controller factories, each returning
a Go `error` (`none` models a nil error), and steady-state reconciliation
never re-queries cluster-provider or version detection. -/
structure StartEnv where
  handleJobs : Option Err
  handlePods : Option Err
  handleClusterScans : Option Err
  handleScheduledClusterScans : Option Err
  handleClusterScanMetrics : Option Err
  startAll : Option Err

/-- `Controller.Start(ctx, threads, resync)` from `controller.go`:
registers the five handlers in source order, returning the first
registration error immediately; only when all five succeed does it call
`start.All` on the cis, core and batch factories, whose result it
returns.  The second component traces the calls made. -/
def Controller.Start (c : Controller) (env : StartEnv) : Option Err × List Call :=
  match env.handleJobs with
  | some e => (some e, [Call.handleJobs])
  | none =>
  match env.handlePods with
  | some e => (some e, [Call.handleJobs, Call.handlePods])
  | none =>
  match env.handleClusterScans with
  | some e => (some e, [Call.handleJobs, Call.handlePods, Call.handleClusterScans])
  | none =>
  match env.handleScheduledClusterScans with
  | some e =>
      (some e, [Call.handleJobs, Call.handlePods, Call.handleClusterScans,
                Call.handleScheduledClusterScans])
  | none =>
  match env.handleClusterScanMetrics with
  | some e =>
      (some e, [Call.handleJobs, Call.handlePods, Call.handleClusterScans,
                Call.handleScheduledClusterScans, Call.handleClusterScanMetrics])
  | none =>
      (env.startAll, [Call.handleJobs, Call.handlePods, Call.handleClusterScans,
                      Call.handleScheduledClusterScans, Call.handleClusterScanMetrics,
                      Call.startAll])

/-- A controller with every late-bound field populated: the mutex, the
clients, the factories and the six metric collectors. -/
def fullInit (c : Controller) : Prop :=
  c.mu.isSome ∧ c.kcs.isSome ∧ c.xcs.isSome ∧ c.coreFactory.isSome ∧
  c.batchFactory.isSome ∧ c.cisFactory.isSome ∧ c.applyClient.isSome ∧
  c.monitoringClient.isSome ∧ c.numTestsFailed.isSome ∧
  c.numScansComplete.isSome ∧ c.numTestsSkipped.isSome ∧
  c.numTestsTotal.isSome ∧ c.numTestsNA.isSome ∧ c.numTestsPassed.isSome

/-- A custom-resource definition, identified by the resource kind it
defines (`crd.CRD` from the wrangler library). -/
structure CRD where
  kindName : String
deriving DecidableEq, Repr

/-- Modelled from the spec: `scan.ClusterScanCRD` (package
`pkg/securityscan/scan`, whose source is outside the observed fragment)
builds the schema definition for the ClusterScan resource, the one
resource kind this operator defines; it backs both on-demand scans and
scheduled scans. -/
def clusterScanCRD : Except Err CRD := .ok { kindName := "ClusterScan" }

/-- Outcome of the CRD factory's batch step.  `batchWait crds` models
`factory.BatchCreateCRDs(ctx, crds...).BatchWait()` from the wrangler
library (an external collaborator): it creates the given definitions and
blocks until every one is ready, returning the resulting Go error
(`none` models a nil error). -/
structure CRDEnv where
  batchWait : List CRD → Option Err

/-- `Controller.registerCRD(ctx)` from `controller.go`: iterates the
one-element list of CRD constructors (`scan.ClusterScanCRD` only),
collects the built definitions, and returns the result of the blocking
batch create-and-wait step over them.  The second component is the list
of definitions handed to that step. -/
def Controller.registerCRD (c : Controller) (env : CRDEnv) : Option Err × List CRD :=
  match clusterScanCRD with
  | .error e => (some e, [])
  | .ok crdef => (env.batchWait [crdef], [crdef])

/-- The two steps of the operator's startup sequence: the CRD
registration step and the start of the Controller Runtime's watches. -/
inductive BootCall
  | registerCRDStep
  | startStep
deriving DecidableEq, Repr

/-- Modelled from the spec: the operator's startup wiring — the main
entry point that calls `registerCRD` and then `Start` is outside the
observed fragment.  Per the spec's resource-registration interface
(a one-time, blocking, wait-for-ready step that ensures the schema
definitions exist before the Controller Runtime starts watching), the
registration step runs exactly once, first; only after it has returned
successfully does the Controller Runtime start watching
(`Controller.Start`), and if the blocking create-and-wait fails,
watching never begins.  The second component is the boot trace, in
execution order. -/
def runOperator (c : Controller) (cenv : CRDEnv) (senv : StartEnv) :
    Option Err × List BootCall :=
  match (Controller.registerCRD c cenv).1 with
  | some e => (some e, [BootCall.registerCRDStep])
  | none =>
      ((Controller.Start c senv).1, [BootCall.registerCRDStep, BootCall.startStep])

/-- Per-scan result counts as the spec's ResultSummary: passed, failed,
skipped, not-applicable and total. -/
structure ResultSummary where
  passed : Nat
  failed : Nat
  skipped : Nat
  notApplicable : Nat
  total : Nat
deriving DecidableEq, Repr

/-- A metric series key: the `scan_name` and `scan_profile_name` label
values. -/
abbrev SeriesKey := String × String

/-- One metric series: the five gauge values (from
`cis_scan_num_tests_fail`, `_total`, `_pass`, `_skipped`, `_na`) and the
`cis_scan_num_scans_complete` counter value for one key. -/
structure SeriesVal where
  failedG : Nat
  totalG : Nat
  passedG : Nat
  skippedG : Nat
  naG : Nat
  completeC : Nat
deriving DecidableEq, Repr

/-- The value store behind the six collector vecs, by series key. -/
abbrev MetricsState := SeriesKey → SeriesVal

/-- A series before any observation: all gauges and the counter at 0. -/
def initSeries : SeriesVal := ⟨0, 0, 0, 0, 0, 0⟩

/-- The metric store at process start. -/
def initMetricsState : MetricsState := fun _ => initSeries

/-- One primitive collector update: a `Set` on one gauge vec or an `Inc`
on the counter vec, at one key.  These are the six individual collector
operations a completion handler performs. -/
inductive MicroOp
  | setFailed (k : SeriesKey) (v : Nat)
  | setTotal (k : SeriesKey) (v : Nat)
  | setPassed (k : SeriesKey) (v : Nat)
  | setSkipped (k : SeriesKey) (v : Nat)
  | setNA (k : SeriesKey) (v : Nat)
  | incComplete (k : SeriesKey)
deriving DecidableEq, Repr

/-- Semantics of one primitive collector update: gauges are set
(replace), the counter is incremented; other keys are untouched. -/
def applyOp : MicroOp → MetricsState → MetricsState
  | .setFailed k v, m => fun k2 => if k2 = k then { m k with failedG := v } else m k2
  | .setTotal k v, m => fun k2 => if k2 = k then { m k with totalG := v } else m k2
  | .setPassed k v, m => fun k2 => if k2 = k then { m k with passedG := v } else m k2
  | .setSkipped k v, m => fun k2 => if k2 = k then { m k with skippedG := v } else m k2
  | .setNA k v, m => fun k2 => if k2 = k then { m k with naG := v } else m k2
  | .incComplete k, m =>
      fun k2 => if k2 = k then { m k with completeC := (m k).completeC + 1 } else m k2

/-- Modelled from the spec: the five-gauge-plus-counter update group one
completion performs for its key (spec section 4.5 `Record`): set the
five gauges to the summary's values, then increment the completed-count
counter by one.  The handler that performs this
(`handleClusterScanMetrics`'s reconcile body) is repository code outside
the observed fragment. -/
def recordOps (k : SeriesKey) (s : ResultSummary) : List MicroOp :=
  [.setFailed k s.failed, .setTotal k s.total, .setPassed k s.passed,
   .setSkipped k s.skipped, .setNA k s.notApplicable, .incComplete k]

/-- Run a list of primitive collector updates in order. -/
def applyOps (ops : List MicroOp) (m : MetricsState) : MetricsState :=
  ops.foldl (fun m op => applyOp op m) m

/-- Modelled from the spec: `Record(seriesKey, summary)` — the whole
update group of one completion, applied atomically. -/
def Record (k : SeriesKey) (s : ResultSummary) (m : MetricsState) : MetricsState :=
  applyOps (recordOps k s) m

/-- State of the metrics store together with the controller's mutex
(`Controller.mu`): whether the lock is held, the completion being
applied while it is held (`lockCur`), its not-yet-applied primitive
updates (`lockPending`), and the ghost history of fully applied
completions (`done`). -/
structure Sys where
  m : MetricsState
  locked : Bool
  lockCur : Option (SeriesKey × ResultSummary)
  lockPending : List MicroOp
  done : List (SeriesKey × ResultSummary)

/-- The store at process start: empty metrics, lock free. -/
def initSys : Sys := ⟨initMetricsState, false, none, [], []⟩

/-- Modelled from the spec: interleaving semantics of concurrent
completions under the mutex discipline of spec section 4.5 — a recorder
acquires the lock, performs its six primitive collector updates one at a
time, and releases the lock only when its whole group is applied.
Observation (a metrics scrape of the snapshot) happens at lock-free
states. -/
inductive Step : Sys → Sys → Prop
  | acquire (s : Sys) (k : SeriesKey) (sm : ResultSummary) :
      s.locked = false →
      Step s ⟨s.m, true, some (k, sm), recordOps k sm, s.done⟩
  | micro (s : Sys) (op : MicroOp) (rest : List MicroOp) :
      s.locked = true → s.lockPending = op :: rest →
      Step s ⟨applyOp op s.m, true, s.lockCur, rest, s.done⟩
  | release (s : Sys) (k : SeriesKey) (sm : ResultSummary) :
      s.locked = true → s.lockPending = [] → s.lockCur = some (k, sm) →
      Step s ⟨s.m, false, none, [], s.done ++ [(k, sm)]⟩

/-- States reachable from process start by any interleaving of
lock-disciplined recordings. -/
inductive Reach : Sys → Prop
  | init : Reach initSys
  | step {s t : Sys} : Reach s → Step s t → Reach t

/-- The store produced by a sequence of whole completions. -/
def execRecords (rs : List (SeriesKey × ResultSummary)) : MetricsState :=
  rs.foldl (fun m r => Record r.1 r.2 m) initMetricsState

/-- The completions recorded for one key, in order. -/
def keyRecords (k : SeriesKey) (rs : List (SeriesKey × ResultSummary)) :
    List (SeriesKey × ResultSummary) :=
  rs.filter (fun r => r.1 == k)

/-- The most recent summary recorded for a key (all-zero before the
first). -/
def lastSummary (k : SeriesKey) (rs : List (SeriesKey × ResultSummary)) : ResultSummary :=
  match (keyRecords k rs).getLast? with
  | none => ⟨0, 0, 0, 0, 0⟩
  | some r => r.2

/-- Lock-discipline invariant: at lock-free states the store equals the
effect of the fully applied completion history; while the lock is held,
the store is the history plus a prefix of the current completion's
update group. -/
def SysInv (s : Sys) : Prop :=
  (s.locked = false → s.lockCur = none ∧ s.lockPending = [] ∧ s.m = execRecords s.done) ∧
  (s.locked = true → ∃ k sm pre, s.lockCur = some (k, sm) ∧
    recordOps k sm = pre ++ s.lockPending ∧ s.m = applyOps pre (execRecords s.done))

/-- A fixed config handle for concrete runs. -/
def cfg0 : Config := ⟨0⟩

/-- A concrete environment in which every external call succeeds. -/
def envAllOk : Env :=
  { inClusterConfig := .ok cfg0
    kubernetesNewForConfig := fun _ => .ok ⟨1⟩
    apiextNewForConfig := fun _ => .ok ⟨2⟩
    detectProvider := fun _ => .ok "k3s"
    serverVersion := fun _ => .ok ⟨"v1.28.0"⟩
    applyNewForConfig := fun _ => .ok ⟨3⟩
    cisNewFactoryFromConfig := fun _ => .ok ⟨4⟩
    batchNewFactoryFromConfig := fun _ => .ok ⟨5⟩
    coreNewFactoryFromConfig := fun _ => .ok ⟨6⟩
    monitoringNewForConfig := fun _ => .ok ⟨7⟩ }

/-- A concrete environment whose in-cluster config lookup fails. -/
def envNoCluster : Env :=
  { envAllOk with inClusterConfig := .error "unable to load in-cluster configuration" }

/-- The controller `NewController` produces under `envAllOk`. -/
def ctl0 : Controller :=
  { Namespace := "cis-operator-system", Name := "cis-operator",
    ClusterProvider := "k3s", KubernetesVersion := "v1.28.0",
    ImageConfig := none, kcs := some ⟨1⟩, xcs := some ⟨2⟩,
    coreFactory := some ⟨6⟩, batchFactory := some ⟨5⟩, cisFactory := some ⟨4⟩,
    applyClient := some ⟨3⟩, monitoringClient := some ⟨7⟩, mu := some (),
    numTestsFailed := some numTestsFailedSpec,
    numScansComplete := some numScansCompleteSpec,
    numTestsSkipped := some numTestsSkippedSpec,
    numTestsTotal := some numTestsTotalSpec,
    numTestsNA := some numTestsNASpec,
    numTestsPassed := some numTestsPassedSpec }

/-- A zero-value controller (all Go zero values), used as a concrete
receiver for `initializeMetrics` runs. -/
def blankCtl : Controller :=
  { Namespace := "", Name := "", ClusterProvider := "", KubernetesVersion := "",
    ImageConfig := none, kcs := none, xcs := none, coreFactory := none,
    batchFactory := none, cisFactory := none, applyClient := none,
    monitoringClient := none, mu := none, numTestsFailed := none,
    numScansComplete := none, numTestsSkipped := none, numTestsTotal := none,
    numTestsNA := none, numTestsPassed := none }

/-- `blankCtl` after a successful `initializeMetrics`. -/
def blankCtlInit : Controller :=
  { blankCtl with
    numTestsFailed := some numTestsFailedSpec
    numScansComplete := some numScansCompleteSpec
    numTestsTotal := some numTestsTotalSpec
    numTestsPassed := some numTestsPassedSpec
    numTestsSkipped := some numTestsSkippedSpec
    numTestsNA := some numTestsNASpec }

/-- A concrete start environment where every handler registers cleanly
and the factories start cleanly. -/
def startEnvAllOk : StartEnv := ⟨none, none, none, none, none, none⟩

/-- A concrete series key: an on-demand scan under one profile. -/
def key0 : SeriesKey := ("manual", "profile-hardened")

/-- The spec's scenario summary: passed 8, failed 2, skipped 0, not
applicable 1, total 11. -/
def sm0 : ResultSummary := ⟨8, 2, 0, 1, 11⟩

/-- The store state after one full, lock-disciplined recording of `sm0`
under `key0`. -/
def sysFin : Sys :=
  ⟨Record key0 sm0 initMetricsState, false, none, [], [(key0, sm0)]⟩

/-- A concrete CRD environment whose batch create-and-wait succeeds. -/
def crdEnvOk : CRDEnv := { batchWait := fun _ => none }

/-- C1: the metric series maintained by the controller consist of exactly
six families — five gauges (failed, total, passed, skipped, not
applicable) and one completed-count counter — and every family is keyed
by exactly the two labels `scan_name` and `scan_profile_name`.
Registering from a fresh default registry succeeds and yields precisely
these families in source order. -/
theorem c1_metric_families (ctl : Controller) :
    (initializeMetrics ctl Registry.emptyReg).2.2 = none ∧
    ((initializeMetrics ctl Registry.emptyReg).2.1).map CollectorSpec.name =
      ["cis_scan_num_tests_fail", "cis_scan_num_scans_complete",
       "cis_scan_num_tests_total", "cis_scan_num_tests_pass",
       "cis_scan_num_tests_skipped", "cis_scan_num_tests_na"] ∧
    ((initializeMetrics ctl Registry.emptyReg).2.1).map CollectorSpec.kind =
      [CollectorKind.gauge, CollectorKind.counter, CollectorKind.gauge,
       CollectorKind.gauge, CollectorKind.gauge, CollectorKind.gauge] ∧
    ((initializeMetrics ctl Registry.emptyReg).2.1).map CollectorSpec.labels =
      List.replicate 6 ["scan_name", "scan_profile_name"] := by
  refine ⟨rfl, rfl, rfl, rfl⟩

/-- Helper: a successful `registerCollector` appends the collector. -/
theorem registerCollector_ok (reg : Registry) (c : CollectorSpec) (r : Registry)
    (h : reg.registerCollector c = .ok r) : r = reg ++ [c] := by
  unfold Registry.registerCollector at h
  split at h <;> simp_all

/-- Helper: a successful `initializeMetrics` run sets exactly the six
collector fields on the controller and appends exactly the six specs to
the registry, leaving every other field unchanged. -/
theorem initializeMetrics_ok (ctl c : Controller) (reg reg2 : Registry)
    (h : initializeMetrics ctl reg = (c, reg2, none)) :
    c = { ctl with
          numTestsFailed := some numTestsFailedSpec
          numScansComplete := some numScansCompleteSpec
          numTestsTotal := some numTestsTotalSpec
          numTestsPassed := some numTestsPassedSpec
          numTestsSkipped := some numTestsSkippedSpec
          numTestsNA := some numTestsNASpec } ∧
    reg2 = reg ++ registeredSpecs := by
  simp only [initializeMetrics] at h
  split at h
  next e heq => simp at h
  next reg1 heq1 =>
  split at h
  next e heq => simp at h
  next regB heq2 =>
  split at h
  next e heq => simp at h
  next regC heq3 =>
  split at h
  next e heq => simp at h
  next regD heq4 =>
  split at h
  next e heq => simp at h
  next regE heq5 =>
  split at h
  next e heq => simp at h
  next regF heq6 =>
  simp only [Prod.mk.injEq] at h
  obtain ⟨hc, hr, -⟩ := h
  have e1 := registerCollector_ok _ _ _ heq1
  have e2 := registerCollector_ok _ _ _ heq2
  have e3 := registerCollector_ok _ _ _ heq3
  have e4 := registerCollector_ok _ _ _ heq4
  have e5 := registerCollector_ok _ _ _ heq5
  have e6 := registerCollector_ok _ _ _ heq6
  subst e1 e2 e3 e4 e5 e6
  refine ⟨hc.symm, ?_⟩
  subst hr
  simp [registeredSpecs]

/-- Helper: inverting a successful `detectClusterProvider`. -/
theorem detectClusterProvider_ok (env : Env) (cs : Clientset) (p : String)
    (h : detectClusterProvider env cs = .ok p) : env.detectProvider cs = .ok p := by
  unfold detectClusterProvider at h
  split at h <;> simp_all

/-- Helper: inverting a successful `detectKubernetesVersion`. -/
theorem detectKubernetesVersion_ok (env : Env) (cs : Clientset) (v : String)
    (h : detectKubernetesVersion env cs = .ok v) :
    ∃ vi, env.serverVersion cs = .ok vi ∧ v = vi.gitVersion := by
  unfold detectKubernetesVersion at h
  split at h <;> simp_all

/-- Helper: a successful run of the `NewController` body pins down every
external-call outcome, the final trace, the final registry and the fully
initialized controller value. -/
theorem newControllerWithConfig_ok (cfg : Config) (ns nm : String)
    (img : Option ScanImageConfig) (env : Env) (reg : Registry) (tr : List Call)
    (c : Controller) (reg' : Registry) (tr' : List Call)
    (h : newControllerWithConfig cfg ns nm img env reg tr = ((some c, none), reg', tr')) :
    ∃ kcs xcs cs prov vi ap cisF bF coreF mon,
      env.kubernetesNewForConfig cfg = .ok kcs ∧
      env.apiextNewForConfig cfg = .ok xcs ∧
      env.kubernetesNewForConfig cfg = .ok cs ∧
      env.detectProvider cs = .ok prov ∧
      env.serverVersion cs = .ok vi ∧
      env.applyNewForConfig cfg = .ok ap ∧
      env.cisNewFactoryFromConfig cfg = .ok cisF ∧
      env.batchNewFactoryFromConfig cfg = .ok bF ∧
      env.coreNewFactoryFromConfig cfg = .ok coreF ∧
      env.monitoringNewForConfig cfg = .ok mon ∧
      tr' = tr ++ bodyCalls ∧
      reg' = reg ++ registeredSpecs ∧
      c = { Namespace := ns, Name := nm, ClusterProvider := prov,
            KubernetesVersion := vi.gitVersion, ImageConfig := img,
            kcs := some kcs, xcs := some xcs, coreFactory := some coreF,
            batchFactory := some bF, cisFactory := some cisF,
            applyClient := some ap, monitoringClient := some mon, mu := some (),
            numTestsFailed := some numTestsFailedSpec,
            numScansComplete := some numScansCompleteSpec,
            numTestsSkipped := some numTestsSkippedSpec,
            numTestsTotal := some numTestsTotalSpec,
            numTestsNA := some numTestsNASpec,
            numTestsPassed := some numTestsPassedSpec } := by
  simp only [newControllerWithConfig] at h
  split at h
  next e heq => simp at h
  next kcs hk =>
  split at h
  next e heq => simp at h
  next xcs hx =>
  split at h
  next e heq => simp at h
  next cs hcs =>
  split at h
  next e heq => simp at h
  next prov hprov =>
  split at h
  next e heq => simp at h
  next ver hver =>
  split at h
  next e heq => simp at h
  next ap hap =>
  split at h
  next e heq => simp at h
  next cisF hcis =>
  split at h
  next e heq => simp at h
  next bF hb =>
  split at h
  next e heq => simp at h
  next coreF hcore =>
  split at h
  next e heq => simp at h
  next mon hmon =>
  split at h
  next x regA e heq => simp at h
  next ctlF regA heq =>
  simp only [Prod.mk.injEq, Option.some.injEq] at h
  obtain ⟨⟨hc, -⟩, hreg, htr⟩ := h
  obtain ⟨hcf, hregf⟩ := initializeMetrics_ok _ _ _ _ heq
  obtain ⟨vi, hvi, hgit⟩ := detectKubernetesVersion_ok _ _ _ hver
  refine ⟨kcs, xcs, cs, prov, vi, ap, cisF, bF, coreF, mon,
    hk, hx, hk.trans hcs, detectClusterProvider_ok _ _ _ hprov, hvi, hap, hcis, hb,
    hcore, hmon, ?_, ?_, ?_⟩
  · rw [← htr]
    simp [bodyCalls]
  · rw [← hreg, hregf]
  · rw [← hc, hcf, hgit]

/-- C8: `NewController` is atomic in its error handling: on every input
it either returns a nil controller together with a non-nil error (when
any initialization step fails), or a fully initialized controller with a
nil error; it never returns a partially initialized controller. -/
theorem c8_newController_atomic (cfg? : Option Config) (ns nm : String)
    (img : Option ScanImageConfig) (env : Env) (reg : Registry) :
    (∃ e, (NewController cfg? ns nm img env reg).1 = (none, some e)) ∨
    (∃ c, (NewController cfg? ns nm img env reg).1 = (some c, none) ∧ fullInit c) := by
  unfold NewController
  have body : ∀ cfg tr0,
      (∃ e, (newControllerWithConfig cfg ns nm img env reg tr0).1 = (none, some e)) ∨
      (∃ c, (newControllerWithConfig cfg ns nm img env reg tr0).1 = (some c, none) ∧
        fullInit c) := by
    intro cfg tr0
    simp only [newControllerWithConfig]
    split
    next e heq => exact Or.inl ⟨_, rfl⟩
    next kcs hk =>
    split
    next e heq => exact Or.inl ⟨_, rfl⟩
    next xcs hx =>
    split
    next e heq => exact Or.inl ⟨_, rfl⟩
    next cs hcs =>
    split
    next e heq => exact Or.inl ⟨_, rfl⟩
    next prov hprov =>
    split
    next e heq => exact Or.inl ⟨_, rfl⟩
    next ver hver =>
    split
    next e heq => exact Or.inl ⟨_, rfl⟩
    next ap hap =>
    split
    next e heq => exact Or.inl ⟨_, rfl⟩
    next cisF hcis =>
    split
    next e heq => exact Or.inl ⟨_, rfl⟩
    next bF hb =>
    split
    next e heq => exact Or.inl ⟨_, rfl⟩
    next coreF hcore =>
    split
    next e heq => exact Or.inl ⟨_, rfl⟩
    next mon hmon =>
    split
    next x regA e heq => exact Or.inl ⟨_, rfl⟩
    next ctlF regA heq =>
      obtain ⟨hcf, -⟩ := initializeMetrics_ok _ _ _ _ heq
      subst hcf
      exact Or.inr ⟨_, rfl, by simp [fullInit]⟩
  match cfg? with
  | some cfg => exact body cfg []
  | none =>
    match hicc : env.inClusterConfig with
    | .error e => exact Or.inl ⟨e, rfl⟩
    | .ok cfg => exact body cfg [Call.inClusterConfig]

/-- C9: with a nil `rest.Config`, `NewController` falls back to the
in-cluster configuration; if that lookup fails it returns nil and that
error immediately — the registry is untouched (no metrics registered)
and the only external call made is `rest.InClusterConfig` (no client was
constructed). -/
theorem c9_nil_config_fallback (ns nm : String) (img : Option ScanImageConfig)
    (env : Env) (reg : Registry) (e : Err) (h : env.inClusterConfig = .error e) :
    NewController none ns nm img env reg = ((none, some e), reg, [Call.inClusterConfig]) := by
  simp [NewController, h]

/-- C10: every controller successfully returned by `NewController` has a
non-nil mutex and all six metric collector fields populated with the six
collector vecs, each of which is registered in the resulting registry. -/
theorem c10_controller_invariant (cfg? : Option Config) (ns nm : String)
    (img : Option ScanImageConfig) (env : Env) (reg : Registry)
    (c : Controller) (reg' : Registry) (tr' : List Call)
    (h : NewController cfg? ns nm img env reg = ((some c, none), reg', tr')) :
    c.mu = some () ∧
    c.numTestsFailed = some numTestsFailedSpec ∧
    c.numScansComplete = some numScansCompleteSpec ∧
    c.numTestsSkipped = some numTestsSkippedSpec ∧
    c.numTestsTotal = some numTestsTotalSpec ∧
    c.numTestsNA = some numTestsNASpec ∧
    c.numTestsPassed = some numTestsPassedSpec ∧
    numTestsFailedSpec ∈ reg' ∧ numScansCompleteSpec ∈ reg' ∧
    numTestsSkippedSpec ∈ reg' ∧ numTestsTotalSpec ∈ reg' ∧
    numTestsNASpec ∈ reg' ∧ numTestsPassedSpec ∈ reg' := by
  have body : ∀ cfg tr0,
      newControllerWithConfig cfg ns nm img env reg tr0 = ((some c, none), reg', tr') →
      c.mu = some () ∧
      c.numTestsFailed = some numTestsFailedSpec ∧
      c.numScansComplete = some numScansCompleteSpec ∧
      c.numTestsSkipped = some numTestsSkippedSpec ∧
      c.numTestsTotal = some numTestsTotalSpec ∧
      c.numTestsNA = some numTestsNASpec ∧
      c.numTestsPassed = some numTestsPassedSpec ∧
      numTestsFailedSpec ∈ reg' ∧ numScansCompleteSpec ∈ reg' ∧
      numTestsSkippedSpec ∈ reg' ∧ numTestsTotalSpec ∈ reg' ∧
      numTestsNASpec ∈ reg' ∧ numTestsPassedSpec ∈ reg' := by
    intro cfg tr0 hb
    obtain ⟨kcs, xcs, cs, prov, vi, ap, cisF, bF, coreF, mon,
      -, -, -, -, -, -, -, -, -, -, -, hreg, hc⟩ :=
      newControllerWithConfig_ok _ _ _ _ _ _ _ _ _ _ hb
    subst hc hreg
    refine ⟨rfl, rfl, rfl, rfl, rfl, rfl, rfl, ?_, ?_, ?_, ?_, ?_, ?_⟩ <;>
      · refine List.mem_append_right _ ?_
        simp [registeredSpecs]
  cases cfg? with
  | some cfg =>
    simp only [NewController] at h
    exact body cfg [] h
  | none =>
    simp only [NewController] at h
    cases hicc : env.inClusterConfig with
    | error e => rw [hicc] at h; simp at h
    | ok cfg => rw [hicc] at h; exact body cfg [Call.inClusterConfig] h

/-- Helper: a recording replaces its key's five gauges with the
summary's values and increments the completed counter by one. -/
theorem Record_self (m : MetricsState) (k : SeriesKey) (s : ResultSummary) :
    Record k s m k =
      ⟨s.failed, s.total, s.passed, s.skipped, s.notApplicable, (m k).completeC + 1⟩ := by
  simp [Record, recordOps, applyOps, applyOp]

/-- Helper: a recording leaves every other key's series untouched. -/
theorem Record_other (m : MetricsState) (k k2 : SeriesKey) (s : ResultSummary)
    (h : k2 ≠ k) : Record k s m k2 = m k2 := by
  simp [Record, recordOps, applyOps, applyOp, h]

/-- Helper: filtering a history extended with a record for the key. -/
theorem keyRecords_append_self (k : SeriesKey) (rs : List (SeriesKey × ResultSummary))
    (sm : ResultSummary) :
    keyRecords k (rs ++ [(k, sm)]) = keyRecords k rs ++ [(k, sm)] := by
  simp [keyRecords, List.filter_append]

/-- Helper: filtering a history extended with a record for another key. -/
theorem keyRecords_append_other (k k2 : SeriesKey) (rs : List (SeriesKey × ResultSummary))
    (sm : ResultSummary) (h : k2 ≠ k) :
    keyRecords k (rs ++ [(k2, sm)]) = keyRecords k rs := by
  simp [keyRecords, List.filter_append, h]

/-- Helper: the latest summary after recording the key is that record's
summary. -/
theorem lastSummary_append_self (k : SeriesKey) (rs : List (SeriesKey × ResultSummary))
    (sm : ResultSummary) : lastSummary k (rs ++ [(k, sm)]) = sm := by
  simp [lastSummary, keyRecords_append_self]

/-- Helper: the latest summary for a key ignores records of other keys. -/
theorem lastSummary_append_other (k k2 : SeriesKey) (rs : List (SeriesKey × ResultSummary))
    (sm : ResultSummary) (h : k2 ≠ k) :
    lastSummary k (rs ++ [(k2, sm)]) = lastSummary k rs := by
  simp [lastSummary, keyRecords_append_other k k2 rs sm h]

/-- Helper: after any sequence of whole completions, each key's series
shows exactly the most recent summary recorded for that key in the five
gauges and the number of completions for that key in the counter. -/
theorem execRecords_at (rs : List (SeriesKey × ResultSummary)) (k : SeriesKey) :
    execRecords rs k =
      ⟨(lastSummary k rs).failed, (lastSummary k rs).total, (lastSummary k rs).passed,
       (lastSummary k rs).skipped, (lastSummary k rs).notApplicable,
       (keyRecords k rs).length⟩ := by
  induction rs using List.reverseRecOn with
  | nil => rfl
  | append_singleton rs r ih =>
    obtain ⟨rk, rsm⟩ := r
    have hstep : execRecords (rs ++ [(rk, rsm)]) = Record rk rsm (execRecords rs) := by
      simp [execRecords, List.foldl_append]
    by_cases hk : rk = k
    · subst hk
      rw [hstep, Record_self, ih, lastSummary_append_self, keyRecords_append_self]
      simp
    · rw [hstep, Record_other _ _ _ _ (Ne.symm hk), ih,
        lastSummary_append_other k rk rs rsm hk, keyRecords_append_other k rk rs rsm hk]

/-- Helper: the lock-discipline invariant is preserved by every step. -/
theorem sysInv_step (s t : Sys) (hs : SysInv s) (hst : Step s t) : SysInv t := by
  cases hst with
  | acquire k sm hl =>
    obtain ⟨h1, -⟩ := hs
    obtain ⟨-, -, hm⟩ := h1 hl
    constructor
    · intro hcontra; simp at hcontra
    · intro _
      exact ⟨k, sm, [], rfl, rfl, by simpa [applyOps] using hm⟩
  | micro op rest hl hp =>
    obtain ⟨-, h2⟩ := hs
    obtain ⟨k, sm, pre, hcur, hops, hm⟩ := h2 hl
    constructor
    · intro hcontra; simp at hcontra
    · intro _
      refine ⟨k, sm, pre ++ [op], hcur, ?_, ?_⟩
      · rw [hops, hp]; simp
      · rw [hm]; simp [applyOps, List.foldl_append]
  | release k sm hl hp hcur =>
    obtain ⟨-, h2⟩ := hs
    obtain ⟨k2, sm2, pre, hcur2, hops, hm⟩ := h2 hl
    have hee : some (k, sm) = some (k2, sm2) := hcur.symm.trans hcur2
    obtain ⟨rfl, rfl⟩ : k = k2 ∧ sm = sm2 := by simpa using hee
    constructor
    · intro _
      refine ⟨rfl, rfl, ?_⟩
      have hpre : recordOps k sm = pre := by rw [hops, hp]; simp
      rw [hm, ← hpre]
      simp [execRecords, List.foldl_append, Record]
    · intro hcontra; simp at hcontra

/-- Helper: every reachable store state satisfies the lock-discipline
invariant. -/
theorem sysInv_reach (s : Sys) (h : Reach s) : SysInv s := by
  induction h with
  | init =>
    constructor
    · intro _; exact ⟨rfl, rfl, rfl⟩
    · intro hcontra; simp [initSys] at hcontra
  | step _ hst ih => exact sysInv_step _ _ ih hst

/-- Helper: the state after one complete lock-disciplined recording is
reachable. -/
theorem reach_sysFin : Reach sysFin := by
  have h0 : Reach initSys := Reach.init
  have h1 := Reach.step h0 (Step.acquire initSys key0 sm0 rfl)
  have h2 := Reach.step h1 (Step.micro _ _ _ rfl rfl)
  have h3 := Reach.step h2 (Step.micro _ _ _ rfl rfl)
  have h4 := Reach.step h3 (Step.micro _ _ _ rfl rfl)
  have h5 := Reach.step h4 (Step.micro _ _ _ rfl rfl)
  have h6 := Reach.step h5 (Step.micro _ _ _ rfl rfl)
  have h7 := Reach.step h6 (Step.micro _ _ _ rfl rfl)
  exact Reach.step h7 (Step.release _ key0 sm0 rfl rfl rfl)

/-- C2 (counterexample): the resource-registration step does not
register two schema definitions — the list it hands to the blocking
batch step has exactly one entry, so no two distinct definitions (one
for scan requests, one for schedule definitions) are ever registered. -/
theorem c2_counterexample :
    (Controller.registerCRD blankCtl crdEnvOk).2.length = 1 ∧
    ¬ (∃ d1 ∈ (Controller.registerCRD blankCtl crdEnvOk).2,
        ∃ d2 ∈ (Controller.registerCRD blankCtl crdEnvOk).2, d1 ≠ d2) := by
  exact ⟨rfl, by decide⟩

/-- C2 (amended): the resource-registration step ensures the schema
definition for the single ClusterScan resource — which backs both scan
requests and scheduled scans — exists before the Controller Runtime
starts watching, and it is a one-time, blocking, wait-for-ready step:
`registerCRD` hands exactly one definition to the blocking batch
create-and-wait call and returns that call's outcome (it does not
complete until the wait does), the startup sequence performs the
registration step exactly once and as its first step, and the watch
step runs exactly when the wait reported the schema ready. -/
theorem c2_single_crd_registered_before_watch (c : Controller) (cenv : CRDEnv)
    (senv : StartEnv) :
    Controller.registerCRD c cenv =
      (cenv.batchWait [{ kindName := "ClusterScan" }], [{ kindName := "ClusterScan" }]) ∧
    (runOperator c cenv senv).2.count BootCall.registerCRDStep = 1 ∧
    (runOperator c cenv senv).2.head? = some BootCall.registerCRDStep ∧
    ((runOperator c cenv senv).2 = [BootCall.registerCRDStep] ∨
     (runOperator c cenv senv).2 = [BootCall.registerCRDStep, BootCall.startStep]) ∧
    (BootCall.startStep ∈ (runOperator c cenv senv).2 ↔
      cenv.batchWait [{ kindName := "ClusterScan" }] = none) := by
  have hreg : Controller.registerCRD c cenv =
      (cenv.batchWait [{ kindName := "ClusterScan" }], [{ kindName := "ClusterScan" }]) := rfl
  cases hbw : cenv.batchWait [{ kindName := "ClusterScan" }] with
  | none =>
    have hrun : runOperator c cenv senv =
        ((Controller.Start c senv).1,
         [BootCall.registerCRDStep, BootCall.startStep]) := by
      simp [runOperator, hreg, hbw]
    refine ⟨by rw [hreg, hbw], ?_, ?_, Or.inr ?_, ?_⟩ <;> simp [hrun, hbw]
  | some e =>
    have hrun : runOperator c cenv senv = (some e, [BootCall.registerCRDStep]) := by
      simp [runOperator, hreg, hbw]
    refine ⟨by rw [hreg, hbw], ?_, ?_, Or.inl ?_, ?_⟩ <;> simp [hrun, hbw]

/-- C3: provider detection and Kubernetes-version detection each appear
exactly once in the external-call trace of a successful `NewController`
run; the detected values are stored in the returned controller's
`ClusterProvider` and `KubernetesVersion` fields; and steady-state
operation (`Controller.Start`, under the spec-modelled handlers) makes
no detection calls. -/
theorem c3_detection_once_at_startup (cfg? : Option Config) (ns nm : String)
    (img : Option ScanImageConfig) (env : Env) (reg : Registry)
    (c : Controller) (reg' : Registry) (tr' : List Call)
    (h : NewController cfg? ns nm img env reg = ((some c, none), reg', tr')) :
    tr'.count Call.detectProviderCall = 1 ∧
    tr'.count Call.serverVersionCall = 1 ∧
    (∃ cfg cs, env.kubernetesNewForConfig cfg = .ok cs ∧
      env.detectProvider cs = .ok c.ClusterProvider ∧
      ∃ vi, env.serverVersion cs = .ok vi ∧ c.KubernetesVersion = vi.gitVersion) ∧
    (∀ senv : StartEnv,
      (Controller.Start c senv).2.count Call.detectProviderCall = 0 ∧
      (Controller.Start c senv).2.count Call.serverVersionCall = 0) := by
  have startPart : ∀ senv : StartEnv,
      (Controller.Start c senv).2.count Call.detectProviderCall = 0 ∧
      (Controller.Start c senv).2.count Call.serverVersionCall = 0 := by
    intro senv
    unfold Controller.Start
    repeat' split
    all_goals exact ⟨rfl, rfl⟩
  have body : ∀ cfg tr0, tr0.count Call.detectProviderCall = 0 →
      tr0.count Call.serverVersionCall = 0 →
      newControllerWithConfig cfg ns nm img env reg tr0 = ((some c, none), reg', tr') →
      tr'.count Call.detectProviderCall = 1 ∧ tr'.count Call.serverVersionCall = 1 ∧
      (∃ cfg2 cs, env.kubernetesNewForConfig cfg2 = .ok cs ∧
        env.detectProvider cs = .ok c.ClusterProvider ∧
        ∃ vi, env.serverVersion cs = .ok vi ∧ c.KubernetesVersion = vi.gitVersion) := by
    intro cfg tr0 h0 hsv0 hb
    obtain ⟨kcs, xcs, cs, prov, vi, ap, cisF, bF, coreF, mon,
      hk, hx, hcs, hdet, hver, hap, hcis, hbf, hcore, hmon, htr, hreg, hc⟩ :=
      newControllerWithConfig_ok _ _ _ _ _ _ _ _ _ _ hb
    subst htr hc
    refine ⟨?_, ?_, cfg, cs, hcs, ?_, vi, hver, rfl⟩
    · rw [List.count_append, h0]; decide
    · rw [List.count_append, hsv0]; decide
    · simpa using hdet
  cases cfg? with
  | some cfg =>
    simp only [NewController] at h
    obtain ⟨h1, h2, h3⟩ := body cfg [] rfl rfl h
    exact ⟨h1, h2, h3, startPart⟩
  | none =>
    simp only [NewController] at h
    cases hicc : env.inClusterConfig with
    | error e => rw [hicc] at h; simp at h
    | ok cfg =>
      rw [hicc] at h
      obtain ⟨h1, h2, h3⟩ := body cfg [Call.inClusterConfig] rfl rfl h
      exact ⟨h1, h2, h3, startPart⟩

/-- Witness for C3 at a concrete all-succeeding environment. -/
theorem c3_detection_once_at_startup_witness :
    bodyCalls.count Call.detectProviderCall = 1 :=
  (c3_detection_once_at_startup (some cfg0) "cis-operator-system" "cis-operator" none
    envAllOk Registry.emptyReg ctl0 registeredSpecs bodyCalls rfl).1

/-- C4 (counterexample): the metric state is not private to one
controller — both `NewController` runs register into the process-wide
default registry, so the first run succeeds from a fresh registry and a
second run over the registry the first one left behind fails with a
duplicate-registration error instead of succeeding independently. -/
theorem c4_counterexample :
    (NewController (some cfg0) "cis-operator-system" "cis-operator" none envAllOk
        Registry.emptyReg).1 = (some ctl0, none) ∧
    (NewController (some cfg0) "other-namespace" "other-name" none envAllOk
        ((NewController (some cfg0) "cis-operator-system" "cis-operator" none envAllOk
            Registry.emptyReg).2.1)).1 =
      (none, some ("Error registering CIS Metrics: " ++
        ("duplicate metrics collector registration attempted: " ++ numTestsFailedSpec.name))) := by
  exact ⟨rfl, rfl⟩

/-- C4 (amended): the collector vecs are per-controller fields, but they
are registered in the process-wide default Prometheus registry; after
one controller's metrics registration succeeds, a second controller's
`initializeMetrics` against that registry collides — it fails on the
first family with a duplicate-registration error and registers
nothing new. -/
theorem c4_metrics_registry_is_process_wide (ctl c1 ctl2 : Controller)
    (reg reg1 : Registry) (h : initializeMetrics ctl reg = (c1, reg1, none)) :
    (initializeMetrics ctl2 reg1).2.2 =
      some ("duplicate metrics collector registration attempted: " ++ numTestsFailedSpec.name) ∧
    (initializeMetrics ctl2 reg1).2.1 = reg1 := by
  obtain ⟨-, hreg⟩ := initializeMetrics_ok _ _ _ _ h
  subst hreg
  have hc : ((reg ++ registeredSpecs).any (fun d => d.name == numTestsFailedSpec.name)) = true := by
    have hr : registeredSpecs.any (fun d => d.name == numTestsFailedSpec.name) = true := by decide
    simp [List.any_append, hr]
  have hdup : (reg ++ registeredSpecs).registerCollector numTestsFailedSpec =
      .error ("duplicate metrics collector registration attempted: " ++ numTestsFailedSpec.name) := by
    simp [Registry.registerCollector, hc]
  simp [initializeMetrics, hdup]

/-- Witness for C4's amended statement at a concrete first run. -/
theorem c4_metrics_registry_is_process_wide_witness :
    (initializeMetrics blankCtl registeredSpecs).2.2 =
      some ("duplicate metrics collector registration attempted: " ++ numTestsFailedSpec.name) :=
  (c4_metrics_registry_is_process_wide blankCtl blankCtlInit blankCtl
    Registry.emptyReg registeredSpecs rfl).1

/-- C5: the five per-test values are applied to gauge-kind collectors —
a recording replaces the prior gauge values for its key with the new
summary, independent of what they were — while the completed count is a
counter-kind collector that increases by exactly one per recorded
completion; other keys are untouched. -/
theorem c5_gauges_replace_counter_increments :
    (numTestsFailedSpec.kind = CollectorKind.gauge ∧
     numTestsTotalSpec.kind = CollectorKind.gauge ∧
     numTestsPassedSpec.kind = CollectorKind.gauge ∧
     numTestsSkippedSpec.kind = CollectorKind.gauge ∧
     numTestsNASpec.kind = CollectorKind.gauge ∧
     numScansCompleteSpec.kind = CollectorKind.counter) ∧
    (∀ (m : MetricsState) (k : SeriesKey) (sm : ResultSummary),
      Record k sm m k = ⟨sm.failed, sm.total, sm.passed, sm.skipped, sm.notApplicable,
        (m k).completeC + 1⟩) ∧
    (∀ (m : MetricsState) (k k2 : SeriesKey) (sm : ResultSummary), k2 ≠ k →
      Record k sm m k2 = m k2) :=
  ⟨⟨rfl, rfl, rfl, rfl, rfl, rfl⟩, Record_self, Record_other⟩

/-- Witness for C5 at concrete keys: recording under one key leaves a
different key's series unchanged. -/
theorem c5_gauges_replace_counter_increments_witness :
    Record key0 sm0 initMetricsState ("scheduled-scan", "profile-permissive") =
      initMetricsState ("scheduled-scan", "profile-permissive") :=
  c5_gauges_replace_counter_increments.2.2 initMetricsState key0
    ("scheduled-scan", "profile-permissive") sm0 (by decide)

/-- C6: `Controller.Start` registers exactly the five handler
responsibilities in source order (jobs, pods, cluster scans, scheduled
cluster scans, cluster-scan metrics) before starting the factories; the
first failing registration's error is returned and the factories are
then never started (`start.All` appears in the trace exactly when all
five registrations succeed). -/
theorem c6_start_registers_five_handlers (c : Controller) (env : StartEnv) :
    (env.handleJobs = none → env.handlePods = none → env.handleClusterScans = none →
      env.handleScheduledClusterScans = none → env.handleClusterScanMetrics = none →
      Controller.Start c env =
        (env.startAll,
         [Call.handleJobs, Call.handlePods, Call.handleClusterScans,
          Call.handleScheduledClusterScans, Call.handleClusterScanMetrics,
          Call.startAll])) ∧
    (∀ e, env.handleJobs = some e →
      Controller.Start c env = (some e, [Call.handleJobs])) ∧
    (∀ e, env.handleJobs = none → env.handlePods = some e →
      Controller.Start c env = (some e, [Call.handleJobs, Call.handlePods])) ∧
    (∀ e, env.handleJobs = none → env.handlePods = none →
      env.handleClusterScans = some e →
      Controller.Start c env =
        (some e, [Call.handleJobs, Call.handlePods, Call.handleClusterScans])) ∧
    (∀ e, env.handleJobs = none → env.handlePods = none →
      env.handleClusterScans = none → env.handleScheduledClusterScans = some e →
      Controller.Start c env =
        (some e, [Call.handleJobs, Call.handlePods, Call.handleClusterScans,
          Call.handleScheduledClusterScans])) ∧
    (∀ e, env.handleJobs = none → env.handlePods = none →
      env.handleClusterScans = none → env.handleScheduledClusterScans = none →
      env.handleClusterScanMetrics = some e →
      Controller.Start c env =
        (some e, [Call.handleJobs, Call.handlePods, Call.handleClusterScans,
          Call.handleScheduledClusterScans, Call.handleClusterScanMetrics])) ∧
    (Call.startAll ∈ (Controller.Start c env).2 ↔
      (env.handleJobs = none ∧ env.handlePods = none ∧ env.handleClusterScans = none ∧
       env.handleScheduledClusterScans = none ∧
       env.handleClusterScanMetrics = none)) := by
  refine ⟨?_, ?_, ?_, ?_, ?_, ?_, ?_⟩
  · intro h1 h2 h3 h4 h5; simp [Controller.Start, h1, h2, h3, h4, h5]
  · intro e h1; simp [Controller.Start, h1]
  · intro e h1 h2; simp [Controller.Start, h1, h2]
  · intro e h1 h2 h3; simp [Controller.Start, h1, h2, h3]
  · intro e h1 h2 h3 h4; simp [Controller.Start, h1, h2, h3, h4]
  · intro e h1 h2 h3 h4 h5; simp [Controller.Start, h1, h2, h3, h4, h5]
  · unfold Controller.Start
    repeat' split <;> simp_all

/-- Witness for C6 at a concrete all-succeeding start environment. -/
theorem c6_start_registers_five_handlers_witness :
    Controller.Start ctl0 startEnvAllOk =
      (none, [Call.handleJobs, Call.handlePods, Call.handleClusterScans,
        Call.handleScheduledClusterScans, Call.handleClusterScanMetrics,
        Call.startAll]) :=
  (c6_start_registers_five_handlers ctl0 startEnvAllOk).1 rfl rfl rfl rfl rfl

/-- C7: under the lock discipline — the whole five-gauge-plus-counter
update group of a completion is applied while the mutex is held — every
observation at a lock-free state sees, for every key, the gauges of the
most recent completion for that key together with a counter equal to the
number of completions for that key: never a partially updated key,
whatever interleaving of concurrent recordings produced the state. -/
theorem c7_lock_serializes_updates (s : Sys) (h : Reach s) (hl : s.locked = false) :
    s.lockPending = [] ∧ s.m = execRecords s.done ∧
    ∀ k, s.m k =
      ⟨(lastSummary k s.done).failed, (lastSummary k s.done).total,
       (lastSummary k s.done).passed, (lastSummary k s.done).skipped,
       (lastSummary k s.done).notApplicable, (keyRecords k s.done).length⟩ := by
  obtain ⟨h1, -⟩ := sysInv_reach s h
  obtain ⟨-, hp, hm⟩ := h1 hl
  exact ⟨hp, hm, fun k => by rw [hm, execRecords_at]⟩

/-- Witness for C7 at the concrete state reached by one full
lock-disciplined recording. -/
theorem c7_lock_serializes_updates_witness :
    sysFin.lockPending = [] ∧ sysFin.m = execRecords sysFin.done :=
  ⟨(c7_lock_serializes_updates sysFin reach_sysFin rfl).1,
   (c7_lock_serializes_updates sysFin reach_sysFin rfl).2.1⟩

/-- Witness for C9 at a concrete environment whose in-cluster lookup
fails. -/
theorem c9_nil_config_fallback_witness :
    NewController none "cis-operator-system" "cis-operator" none envNoCluster
      Registry.emptyReg =
      ((none, some "unable to load in-cluster configuration"), Registry.emptyReg,
       [Call.inClusterConfig]) :=
  c9_nil_config_fallback "cis-operator-system" "cis-operator" none envNoCluster
    Registry.emptyReg "unable to load in-cluster configuration" rfl

/-- Witness for C10 at a concrete all-succeeding environment. -/
theorem c10_controller_invariant_witness : ctl0.mu = some () :=
  (c10_controller_invariant (some cfg0) "cis-operator-system" "cis-operator" none
    envAllOk Registry.emptyReg ctl0 registeredSpecs bodyCalls rfl).1

end CisOperator

